import Mathlib

/-!
Shallow embedding of the student-guidance chatbot web application
(`src/app.py`): the account store (`register_user`, `login_user`), the
authentication gate (`check_auth`) with the profile endpoint
(`get_user_profile`), and the rule-based chat endpoint (`chat`) with its
process-wide `consecutive_errors` counter.  Stateful code is embedded by
explicit state passing: the SQLite `users` table becomes a `List User`
(rows in insertion order), the Flask session becomes an `Option Nat`
(the stored `user_id`), and the global `consecutive_errors` counter is an
explicit `Nat` argument and result of `chat`.
-/

/-- Model of Python's `s.lower().strip()` (line 202 of `src/app.py`):
lower-case every character, then drop whitespace from both ends. -/
def lower_strip (s : String) : String :=
  String.mk ((((s.data.map Char.toLower).dropWhile Char.isWhitespace).reverse.dropWhile
    Char.isWhitespace).reverse)

/-- Model of Python's substring test `needle in hay`: some suffix of `hay`
starts with `needle`. -/
def strContains (hay needle : String) : Bool :=
  hay.data.tails.any (fun t => needle.data.isPrefixOf t)

/-! Reply texts of the chat endpoint, verbatim from `src/app.py`
(lines 206-481).  The triple-quoted Python literals keep their embedded
newlines and eight-space continuation indentation. -/

/-- Reply of the empty-input branch (line 206). -/
def clarify_reply : String :=
  "Please tell me your career ambition or what you'd like to know! 🤔"

/-- Reply of the greeting branch (line 210). -/
def greeting_reply : String :=
  "Hello there! 👋 I'm a student guidance chatbot. Are you looking for tech-based job opportunities or upskilling roadmaps? 🚀"

/-- Reply of the affirmation branch (line 215). -/
def affirmation_reply : String :=
  "Great! ✨ To help you better, what specific tech job or area are you interested in? For example, 'web developer', 'data scientist', 'cybersecurity', or 'software tester'? 💡"

/-- Reply of the negation branch (line 220). -/
def negation_reply : String :=
  "Okay, no problem! 😊 Is there anything else I can assist you with today, perhaps general information about IT fields or learning resources? 📚"

/-- Reply of the gratitude branch (line 225). -/
def thanks_reply : String :=
  "You're welcome! 🙏 Is there anything else I can help you with regarding tech careers or learning paths? 🎓"

/-- Reply of the jobs-after-BCA branch (lines 230-249). -/
def bca_reply : String :=
  "After BCA, you have diverse job opportunities in IT! 🌟 Some common roles include:
        - Software Developer / Engineer 💻
        - Web Developer (Frontend, Backend, Full-Stack) 🌐
        - Data Analyst / Data Scientist 📊
        - Cybersecurity Analyst 🔒
        - Cloud Engineer / DevOps Engineer ☁️
        - Database Administrator / DBMS Engineer 🗄️
        - IT Support Specialist 🛠️
        - Systems Analyst 📈
        - App Developer (Android/iOS) 📱
        - Technical Content Writer ✍️
        - Software Tester / QA Engineer 🧪
        - Machine Learning Engineer / AI Engineer 🧠
        - IoT Developer 🔗
        - Android Developer 🤖
        - iOS Developer 🍎
        - Blockchain Developer ⛓️
        - Educator / Teacher 🧑‍🏫
        - Flutter Developer 🦋
        Would you like a roadmap for any of these, or more details on a specific role? 👇"

/-- Reply of the web-developer branch (lines 254-262). -/
def web_developer_reply : String :=
  "A **Web Developer** builds and maintains websites. 🌐
        **Key Skills:** HTML, CSS, JavaScript (for frontend), Python/Node.js/PHP (for backend), database knowledge (SQL/NoSQL), frameworks (React, Angular, Vue, Django, Express), Git.
        **Typical Roadmap (Estimated Time):**
        1.  **Foundations:** HTML, CSS, JavaScript basics (2-4 months) 📚
        2.  **Frontend Deep Dive:** Choose a framework (React/Vue/Angular) (3-6 months) ✨
        3.  **Backend Basics:** Learn a language/framework (Node.js/Python Flask/Django) (3-5 months) ⚙️
        4.  **Databases:** SQL (e.g., PostgreSQL) and maybe NoSQL (e.g., MongoDB) (1-2 months) 🗄️
        5.  **Version Control:** Git & GitHub (2-4 weeks) 🌳
        6.  **Build Projects!** (Ongoing) 🚀"

/-- Reply of the data-scientist branch (lines 267-275). -/
def data_scientist_reply : String :=
  "A **Data Analyst/Scientist** extracts insights from data to aid decision-making. 📊
        **Key Skills:** Python (Pandas, NumPy, Matplotlib), R, SQL, Statistics, Data Visualization, Machine Learning fundamentals.
        **Typical Roadmap (Estimated Time):**
        1.  **Programming:** Python fundamentals with data libraries (2-4 months) 🐍
        2.  **Statistics & Math:** Probability, hypothesis testing (2-3 months) ➕
        3.  **Data Manipulation:** SQL and data cleaning techniques (1-2 months) 🧹
        4.  **Machine Learning:** Supervised/Unsupervised learning (3-6 months) 🤖
        5.  **Tools:** Jupyter Notebooks, scikit-learn (1 month) 🛠️
        6.  **Practice with Real Data!** (Ongoing) 📈"

/-- Reply of the cybersecurity branch (lines 280-287). -/
def cybersecurity_reply : String :=
  "A **Cybersecurity Analyst** protects systems and networks from digital threats. 🔒
        **Key Skills:** Networking (TCP/IP, firewalls), Operating Systems (Linux, Windows security), Cryptography, Vulnerability Assessment, Incident Response.
        **Typical Roadmap (Estimated Time):**
        1.  **Networking & OS Basics:** Understand how computers and networks work (2-3 months) 🌐
        2.  **Security Fundamentals:** Learn about common threats, defense mechanisms (2-4 months) 🛡️
        3.  **Tools:** Get hands-on with security tools (e.g., Nmap, Wireshark) (1-2 months) 🕵️‍♀️
        4.  **Ethical Hacking:** Understand attacker mindsets (for defense) (2-3 months) 😈
        5.  **Certifications:** Consider CompTIA Security+, CEH (3-6 months, varies) 📜"

/-- Reply of the cloud/DevOps branch (lines 292-300). -/
def cloud_devops_reply : String :=
  "A **Cloud Engineer / DevOps Engineer** focuses on building, deploying, and managing applications in cloud environments, and automating software delivery. ☁️
        **Key Skills:** Cloud Platforms (AWS, Azure, GCP), Linux, Scripting (Python/Bash), CI/CD tools (Jenkins, GitLab CI), Containerization (Docker), Orchestration (Kubernetes), Infrastructure as Code (Terraform).
        **Typical Roadmap (Estimated Time):**
        1.  **Linux & Networking:** Strong understanding of Linux command line and network basics (2-3 months) 🐧
        2.  **Cloud Fundamentals:** Learn one major cloud provider (AWS/Azure/GCP) (3-5 months) 🚀
        3.  **Scripting:** Python or Bash for automation (1-2 months) ✍️
        4.  **CI/CD:** Understand continuous integration/delivery pipelines (2-3 months) 🔄
        5.  **Containerization:** Docker basics (1 month) 🐳
        6.  **IaC:** Learn Terraform or CloudFormation (1-2 months) 🏗️"

/-- Reply of the software-developer branch (lines 305-313). -/
def software_developer_reply : String :=
  "A **Software Developer/Engineer** designs, codes, tests, and maintains software applications. 💻
        **Key Skills:** Core programming language (Java, Python, C++), Data Structures & Algorithms, Object-Oriented Programming, Problem Solving, Debugging, Version Control (Git).
        **Typical Roadmap (Estimated Time):**
        1.  **Choose a Language:** Master one language (e.g., Python or Java) (2-4 months) 🧠
        2.  **DSA & OOP:** Solidify understanding of data structures, algorithms, and OOP (3-5 months) 🧩
        3.  **Development Tools:** Learn IDEs, debuggers, Git (1 month) 🛠️
        4.  **Build Small Projects:** Apply your knowledge (Ongoing) 🚀
        5.  **Testing:** Understand unit and integration testing (2-4 weeks) 🧪
        6.  **Specialization:** Decide on web, mobile, desktop, or other domains (Ongoing) ✨"

/-- Reply of the Python-developer branch (lines 318-329). -/
def python_developer_reply : String :=
  "A **Python Developer** specializes in building various applications, from web and data science to automation and backend systems, using the Python language. 🐍
        **Key Skills:** Python syntax, data structures, algorithms, object-oriented programming, relevant libraries (e.g., Flask/Django for web, Pandas/NumPy for data), database interaction, Git.
        **Typical Roadmap (Estimated Time):**
        1.  **Python Fundamentals:** Syntax, variables, loops, functions, basic data structures (1-2 months) 📚
        2.  **Intermediate Python:** OOP, error handling, modules, file I/O (1-2 months) 💡
        3.  **Choose a Specialization:**
            * **Web Development:** Flask/Django (2-4 months) 🌐
            * **Data Science:** Pandas, NumPy, Matplotlib, Scikit-learn (3-6 months) 📊
            * **Automation/Scripting:** OS module, regex, web scraping (1-2 months) 🤖
        4.  **Databases:** SQL with Python (e.g., SQLAlchemy/Psycopg2) (1 month) 🗄️
        5.  **Version Control:** Git & GitHub (2-4 weeks) 🌳
        6.  **Build Projects!** (Ongoing) 🚀"

/-- Reply of the language-based-developer branch (lines 337-347). -/
def language_developer_reply : String :=
  "To provide a more tailored roadmap, **which specific programming language are you interested in (e.g., Java, C++, JavaScript, C#, Go, Ruby, Swift, Kotlin, etc.)?** 🤔

        Generally, becoming a **Language-Based Developer** involves mastering a specific programming language and its ecosystem. 💻
        **Key Skills:** Chosen language syntax, core libraries/APIs, data structures, algorithms, object-oriented/functional programming (as applicable), relevant frameworks, testing, Git.
        **Typical Roadmap (Estimated Time - varies by language and specialization):**
        1.  **Language Fundamentals:** Syntax, basic constructs, data types (1-3 months) 📚
        2.  **Core Concepts:** OOP/Functional paradigms, error handling, standard library usage (2-4 months) 💡
        3.  **Ecosystem & Frameworks:** Learn popular frameworks/libraries for web, mobile, desktop, or enterprise applications in that language (3-6 months) ✨
        4.  **Databases:** How to interact with databases from your chosen language (1-2 months) 🗄️
        5.  **Version Control:** Git & GitHub (2-4 weeks) 🌳
        6.  **Build Projects!** (Ongoing) 🚀"

/-- Reply of the software-tester branch (lines 352-361). -/
def software_tester_reply : String :=
  "A **Software Tester / QA Engineer** ensures the quality of software by identifying bugs, defects, and ensuring it meets requirements. 🧪
        **Key Skills:** Software Testing Life Cycle (STLC), Test Case Design, Bug Reporting, Manual Testing, Automation Testing (Selenium, Playwright), SQL basics, understanding of SDLC.
        **Typical Roadmap (Estimated Time):**
        1.  **Testing Fundamentals:** SDLC, STLC, types of testing (manual, automation, performance, security) (1-2 months) 📚
        2.  **Test Case Design & Execution:** Writing effective test cases, bug tracking tools (Jira, Bugzilla) (1-2 months) 📝
        3.  **SQL Basics:** For database testing (2-4 weeks) 🗄️
        4.  **Automation Testing Intro:** Learn a tool/framework (e.g., Selenium with Python/Java) (3-5 months) 🤖
        5.  **API Testing:** Tools like Postman (1 month) 🔌
        6.  **Version Control:** Git basics (2-4 weeks) 🌳
        7.  **Practice with Projects!** (Ongoing) ✅"

/-- Reply of the machine-learning branch (lines 366-374). -/
def ml_engineer_reply : String :=
  "A **Machine Learning Engineer** designs, builds, and deploys AI/ML models into production systems. 🧠
        **Key Skills:** Python (NumPy, Pandas, Scikit-learn, TensorFlow/PyTorch), Linear Algebra, Calculus, Statistics, Machine Learning Algorithms, Deep Learning, MLOps, Cloud Platforms (AWS Sagemaker, Azure ML).
        **Typical Roadmap (Estimated Time):**
        1.  **Python & Data Science Basics:** Python fundamentals, Pandas, NumPy (2-3 months) 🐍
        2.  **Mathematics for ML:** Linear Algebra, Calculus, Statistics (2-4 months) ➕
        3.  **Core ML Algorithms:** Supervised, Unsupervised, Reinforcement Learning (3-6 months) 🤖
        4.  **Deep Learning:** Neural Networks, frameworks (TensorFlow/PyTorch) (3-6 months) 💡
        5.  **MLOps & Deployment:** Docker, Kubernetes, cloud ML services (2-4 months) ☁️
        6.  **Build End-to-End Projects!** (Ongoing) 🚀"

/-- Reply of the DBMS branch (lines 379-389). -/
def dbms_reply : String :=
  "A **DBMS Engineer / Database Administrator (DBA) / Database Architect** designs, implements, maintains, and optimizes databases to ensure data integrity, security, and performance. 🗄️
        **Key Skills:** SQL (Advanced), Database Management Systems (MySQL, PostgreSQL, Oracle, SQL Server), NoSQL Databases (MongoDB, Cassandra), Database Design & Modeling, Performance Tuning, Backup & Recovery, Security.
        **Typical Roadmap (Estimated Time):**
        1.  **SQL Fundamentals:** Queries, DDL, DML (1-2 months) 📝
        2.  **Relational Database Concepts:** Normalization, ACID properties (1 month) 🧩
        3.  **Specific RDBMS:** In-depth knowledge of one (e.g., MySQL or PostgreSQL) (2-4 months) 📊
        4.  **Database Design & Modeling:** ER diagrams, schema design (1-2 months) 📐
        5.  **Performance Tuning & Optimization:** Indexing, query optimization (2-3 months) ⚡
        6.  **Backup, Recovery & Security:** Strategies and implementation (1-2 months) 🔒
        7.  **NoSQL Databases (Optional but Recommended):** Basics of MongoDB, Cassandra (1-2 months) 📂
        8.  **Practice with Real-World Scenarios!** (Ongoing) 🚀"

/-- Reply of the IoT branch (lines 394-403). -/
def iot_developer_reply : String :=
  "An **IoT Developer** specializes in building and deploying solutions for interconnected devices, focusing on hardware, software, and data communication. 🔗
        **Key Skills:** Embedded Systems (Arduino, Raspberry Pi), Programming (Python, C/C++), Networking Protocols (MQTT, HTTP), Cloud Platforms (AWS IoT, Azure IoT Hub), Data Processing, Security.
        **Typical Roadmap (Estimated Time):**
        1.  **Electronics & Microcontrollers:** Basics of circuits, Arduino/Raspberry Pi (2-3 months) 💡
        2.  **Embedded Programming:** C/C++ for microcontrollers, Python for higher-level logic (2-4 months) 💻
        3.  **Networking & Protocols:** TCP/IP, MQTT, HTTP, CoAP (1-2 months) 📡
        4.  **IoT Platforms:** Learn one cloud IoT platform (e.g., AWS IoT Core, Azure IoT Hub) (2-4 months) ☁️
        5.  **Data Handling:** Sensor data acquisition, basic data processing (1-2 months) 📊
        6.  **Security in IoT:** Understanding vulnerabilities and best practices (1 month) 🔒
        7.  **Build End-to-End IoT Projects!** (Ongoing) 🏠"

/-- Reply of the Android branch (lines 408-417). -/
def android_developer_reply : String :=
  "An **Android Developer** builds applications for the Android operating system. 🤖
        **Key Skills:** Java or Kotlin, Android SDK, Android Studio, XML for UI layouts, Material Design, API integration, databases (SQLite/Room), Git.
        **Typical Roadmap (Estimated Time):**
        1.  **Java or Kotlin Fundamentals:** Master one language (2-4 months) 📚
        2.  **Android Basics:** Android SDK, Android Studio IDE, basic UI components (3-5 months) 📱
        3.  **Advanced UI/UX:** Material Design, custom views (1-2 months) ✨
        4.  **Data Storage:** SQLite, Room Persistence Library (1-2 months) 🗄️
        5.  **API Integration:** Working with REST APIs (1-2 months) 🔌
        6.  **Version Control:** Git & GitHub (2-4 weeks) 🌳
        7.  **Build and Publish Apps!** (Ongoing) 🚀"

/-- Reply of the iOS branch (lines 422-431). -/
def ios_developer_reply : String :=
  "An **iOS Developer** builds applications for Apple's iOS ecosystem (iPhone, iPad). 🍎
        **Key Skills:** Swift or Objective-C, Xcode IDE, iOS SDK, SwiftUI/UIKit for UI, API integration, Core Data/Realm, Git.
        **Typical Roadmap (Estimated Time):**
        1.  **Swift Fundamentals:** Master the Swift programming language (2-4 months) 📚
        2.  **iOS Basics:** Xcode IDE, iOS SDK, basic UI (UIKit/SwiftUI) (3-5 months) 📱
        3.  **Advanced UI/UX:** Complex layouts, animations (1-2 months) ✨
        4.  **Data Persistence:** Core Data, Realm, User Defaults (1-2 months) 🗄️
        5.  **API Integration:** Working with REST APIs (1-2 months) 🔌
        6.  **Version Control:** Git & GitHub (2-4 weeks) 🌳
        7.  **Build and Publish Apps!** (Ongoing) 🚀"

/-- Reply of the Flutter branch (lines 436-446). -/
def flutter_developer_reply : String :=
  "A **Flutter Developer** builds natively compiled applications for mobile, web, and desktop from a single codebase using Google's Flutter UI toolkit. 🦋
        **Key Skills:** Dart programming language, Flutter SDK, Widget-based UI, State Management (Provider, BLoC, Riverpod), API integration, Firebase/local storage, Git.
        **Typical Roadmap (Estimated Time):**
        1.  **Dart Fundamentals:** Master the Dart programming language (1-2 months) 📚
        2.  **Flutter Basics:** Widgets, layout, navigation, Flutter SDK (2-4 months) 📱
        3.  **State Management:** Learn a popular solution (Provider, BLoC, Riverpod) (1-2 months) 🧩
        4.  **API Integration:** Fetching data from web services (1-2 months) 🔌
        5.  **Local Data Persistence:** Shared Preferences, SQLite (1 month) 🗄️
        6.  **Firebase/Backend Integration:** Cloud Firestore, Authentication (1-2 months) ☁️
        7.  **Version Control:** Git & GitHub (2-4 weeks) 🌳
        8.  **Build and Deploy Cross-Platform Apps!** (Ongoing) 🚀"

/-- Reply of the blockchain branch (lines 451-460). -/
def blockchain_developer_reply : String :=
  "A **Blockchain Developer** designs and implements decentralized applications (DApps) and smart contracts on blockchain platforms. ⛓️
        **Key Skills:** Cryptography basics, Distributed Ledger Technology (DLT), Smart Contract Languages (e.g., Solidity for Ethereum), Blockchain Platforms (Ethereum, Hyperledger, Corda), Web3.js/Ethers.js, Token Standards (ERC-20, ERC-721), Git.
        **Typical Roadmap (Estimated Time):**
        1.  **Fundamentals:** Cryptography, Distributed Systems, Networking basics (2-3 months) 📚
        2.  **Blockchain Concepts:** Consensus mechanisms, immutability, decentralization (1-2 months) 💡
        3.  **Smart Contracts:** Learn Solidity (for Ethereum) or equivalent for other platforms (3-5 months) 📝
        4.  **Blockchain Platforms:** Dive deep into Ethereum, or explore Hyperledger, Polkadot, etc. (2-4 months) 🌐
        5.  **Web3 Development:** Interacting with blockchains from frontend apps (Web3.js/Ethers.js) (1-2 months) 🔌
        6.  **Security in Blockchain:** Common vulnerabilities, best practices (1 month) 🔒
        7.  **Build DApps and Projects!** (Ongoing) 🚀"

/-- Reply of the educator branch (lines 465-473). -/
def educator_reply : String :=
  "An **Educator / Teacher** in the computer science or IT field shares knowledge and guides students in academic or vocational settings. 🧑‍🏫
        **Key Skills:** Strong subject matter expertise (Computer Science, programming, IT concepts), excellent communication, presentation skills, patience, curriculum development, classroom management (if applicable).
        **Typical Roadmap (Estimated Time):**
        1.  **Strong BCA Foundation:** Master core computer science concepts (Ongoing throughout BCA) 🎓
        2.  **Further Education:** MCA, M.Sc. in CS/IT, or B.Ed. (for school-level teaching) (2-3 years) 📚
        3.  **Communication & Presentation Skills:** Practice explaining complex topics clearly (Ongoing) 🗣️
        4.  **Pedagogy Basics:** Understand teaching methodologies (can be self-taught or through B.Ed.) (1-3 months) 💡
        5.  **Practical Experience:** Internships, tutoring, teaching assistant roles (Ongoing) 🤝
        6.  **Specialization:** Focus on specific subjects you want to teach (e.g., Python, Web Dev, Data Science) (Ongoing) ✨"

/-- Escalated fallback reply, sent when the incremented error counter reaches 2
(line 478). -/
def escalated_fallback_reply : String :=
  "I'm sorry, I can only provide guidance for specific tech career paths like Web Developer, Data Scientist, Cybersecurity, Cloud/DevOps, Software Developer, Python Developer, Software Tester, Machine Learning Engineer, Database roles, IoT Developer, Android Developer, iOS Developer, Blockchain Developer, Educator, or Flutter Developer. You might find more general help by trying a broader AI like Google Gemini: [https://gemini.google.com/](https://gemini.google.com/) 🤖"

/-- Generic fallback reply, sent on an unmatched turn while the incremented
counter is still below 2 (line 481). -/
def generic_fallback_reply : String :=
  "Sorry, I couldn't understand your request. Can you please ask again, perhaps by mentioning a specific tech career or skill? 🤔"

/-- Greeting keywords tested by substring containment (line 208). -/
def greeting_words : List String :=
  ["hello", "hi", "hey", "good morning", "good afternoon", "good evening", "good night",
    "how are you", "what's up", "greetings"]

/-- Exact-match affirmations (line 213). -/
def affirmation_words : List String :=
  ["yes", "yeah", "yep", "yup", "sure", "definitely"]

/-- Exact-match negations (line 218). -/
def negation_words : List String :=
  ["no", "nope", "not really", "nah"]

/-- The ordered if/elif cascade of the chat handler (lines 204-474) applied to
the already lower-cased and stripped message: the first predicate that holds
wins and yields its canned reply; `none` means no branch matched (the terminal
fallback of lines 476-483).  In the source every `some` branch additionally
sets `consecutive_errors = 0` before returning; `chat` below applies that
uniform side effect. -/
def matchRule (user_message : String) : Option String :=
  if user_message = "" then
    some clarify_reply
  else if greeting_words.any (fun w => strContains user_message w) then
    some greeting_reply
  else if affirmation_words.contains user_message then
    some affirmation_reply
  else if negation_words.contains user_message then
    some negation_reply
  else if strContains user_message "thanks" || strContains user_message "thank you" ||
      strContains user_message "ty" then
    some thanks_reply
  else if strContains user_message "job opportunities after bca" ||
      strContains user_message "jobs after bca" ||
      strContains user_message "career after bca" then
    some bca_reply
  else if strContains user_message "web developer" || strContains user_message "web dev" ||
      strContains user_message "frontend" || strContains user_message "backend" then
    some web_developer_reply
  else if strContains user_message "data scientist" || strContains user_message "data analyst" ||
      strContains user_message "data science" then
    some data_scientist_reply
  else if strContains user_message "cybersecurity" || strContains user_message "cyber security" ||
      strContains user_message "security analyst" then
    some cybersecurity_reply
  else if strContains user_message "cloud engineer" || strContains user_message "devops" ||
      strContains user_message "devops engineer" || strContains user_message "cloud computing" then
    some cloud_devops_reply
  else if strContains user_message "software developer" ||
      strContains user_message "software engineer" || strContains user_message "programmer" then
    some software_developer_reply
  else if strContains user_message "python developer" ||
      strContains user_message "python programming" then
    some python_developer_reply
  else if strContains user_message "java developer" || strContains user_message "java programming" ||
      strContains user_message "c++ developer" || strContains user_message "c++ programming" ||
      strContains user_message "javascript developer" ||
      strContains user_message "javascript programming" ||
      strContains user_message "language based developer" then
    some language_developer_reply
  else if strContains user_message "software tester" || strContains user_message "qa engineer" ||
      strContains user_message "quality assurance" ||
      strContains user_message "software testing" then
    some software_tester_reply
  else if strContains user_message "machine learning engineer" ||
      strContains user_message "ml engineer" || strContains user_message "ai engineer" ||
      strContains user_message "artificial intelligence engineer" then
    some ml_engineer_reply
  else if strContains user_message "dbms" || strContains user_message "database architect" ||
      strContains user_message "database engineer" ||
      strContains user_message "database administrator" then
    some dbms_reply
  else if strContains user_message "iot developer" ||
      strContains user_message "internet of things developer" then
    some iot_developer_reply
  else if strContains user_message "android developer" || strContains user_message "android app" ||
      strContains user_message "mobile developer android" then
    some android_developer_reply
  else if strContains user_message "ios developer" || strContains user_message "ios app" ||
      strContains user_message "mobile developer ios" then
    some ios_developer_reply
  else if strContains user_message "flutter developer" ||
      strContains user_message "flutter programming" || strContains user_message "flutter app" ||
      strContains user_message "cross-platform mobile developer" then
    some flutter_developer_reply
  else if strContains user_message "blockchain developer" ||
      strContains user_message "blockchain programming" ||
      strContains user_message "crypto developer" then
    some blockchain_developer_reply
  else if strContains user_message "educator" || strContains user_message "teacher" ||
      strContains user_message "professor" || strContains user_message "lecturer" ||
      strContains user_message "computer instructor" then
    some educator_reply
  else
    none

/-- The `/chat` endpoint (lines 198-483): state passing makes the global
`consecutive_errors` counter explicit.  The raw message is lower-cased and
stripped (line 202); a matched branch returns its reply with the counter reset
to 0; the unmatched terminal path (lines 476-483) increments the counter, and
returns the escalated fallback with the counter reset to 0 when the
incremented counter reaches 2, else the generic fallback with the incremented
counter.  Every path returns a reply: the handler has no error path. -/
def chat (raw_message : String) (consecutive_errors : Nat) : String × Nat :=
  match matchRule (lower_strip raw_message) with
  | some reply => (reply, 0)
  | none =>
    if consecutive_errors + 1 ≥ 2 then
      (escalated_fallback_reply, 0)
    else
      (generic_fallback_reply, consecutive_errors + 1)

/-- The error-streak counter left behind by a sequence of chat calls, starting
from counter value `c`. -/
def runChat (msgs : List String) (c : Nat) : Nat :=
  msgs.foldl (fun e m => (chat m e).2) c

/-- All canned replies the chat handler can produce. -/
def all_replies : List String :=
  [clarify_reply, greeting_reply, affirmation_reply, negation_reply, thanks_reply, bca_reply,
    web_developer_reply, data_scientist_reply, cybersecurity_reply, cloud_devops_reply,
    software_developer_reply, python_developer_reply, language_developer_reply,
    software_tester_reply, ml_engineer_reply, dbms_reply, iot_developer_reply,
    android_developer_reply, ios_developer_reply, flutter_developer_reply,
    blockchain_developer_reply, educator_reply, escalated_fallback_reply,
    generic_fallback_reply]

/-- A row of the `users` table (lines 22-30): id, username, email, password
(stored verbatim) and the human-readable `member_since` string. -/
structure User where
  id : Nat
  username : String
  email : String
  password : String
  member_since : String
deriving DecidableEq, Repr

/-- AUTOINCREMENT id of the next inserted row: one more than the largest id in
the table (0 when empty). -/
def nextId (store : List User) : Nat :=
  (store.map User.id).foldr Nat.max 0 + 1

/-- The `/register_user` endpoint (lines 85-125) against a store state:
returns the HTTP status, the response message and the store after the call.
A missing JSON field and an empty string both fail Python's truthiness test,
so both are modelled as the empty string.  The duplicate check is the query
`SELECT id FROM users WHERE email = ? OR username = ?` (line 101); a new row
is appended with `member_since` captured at call time (passed in here). -/
def register_user (username email password member_since : String)
    (store : List User) : Nat × String × List User :=
  if email = "" ∨ password = "" ∨ username = "" then
    (400, "Email, password, and username are required.", store)
  else if password.length < 6 then
    (400, "Password must be at least 6 characters long.", store)
  else if store.any (fun u => u.email == email || u.username == username) then
    (409, "Email or username already registered.", store)
  else
    (201, "Registration successful! Please log in.",
      store ++ [⟨nextId store, username, email, password, member_since⟩])

/-- The session established by a successful login: `user_id`, `user_email`
and `username` (lines 147-149). -/
structure Session where
  user_id : Nat
  user_email : String
  username : String
deriving DecidableEq, Repr

/-- The `/login_user` endpoint (lines 127-161): returns the HTTP status, the
response message, and the session established on success (`none` otherwise).
The lookup is `SELECT ... FROM users WHERE email = ?` with `fetchone`, i.e.
the first row whose email matches. -/
def login_user (email password : String) (store : List User) :
    Nat × String × Option Session :=
  if email = "" ∨ password = "" then
    (400, "Email and password are required.", none)
  else
    match store.find? (fun u => u.email == email) with
    | some user =>
      if user.password == password then
        (200, "Login successful!", some ⟨user.id, user.email, user.username⟩)
      else
        (401, "Invalid email or password.", none)
    | none => (401, "Invalid email or password.", none)

/-- An HTTP response as far as the claims need it: a redirect, a JSON message
body with a status, or the profile JSON body with a status. -/
inductive Resp where
  | redirect (location : String) : Resp
  | json (status : Nat) (message : String) : Resp
  | profile (status : Nat) (username email member_since account_type : String) : Resp
deriving DecidableEq, Repr

/-- Paths exempted from the authentication check (line 45). -/
def auth_exempt_paths : List String :=
  ["/login", "/register", "/login_user", "/register_user", "/static/style.css",
    "/static/script.js"]

/-- The `before_request` hook `check_auth` (lines 42-52), with the session
reduced to its stored `user_id`: `some r` intercepts the request with response
`r` before the route handler runs; `none` lets the request through.
`url_for('login_page')` is the path `/login`. -/
def check_auth (path endpoint : String) (user_id : Option Nat) : Option Resp :=
  if auth_exempt_paths.contains path then
    none
  else
    match user_id with
    | some _ => none
    | none =>
      if endpoint ≠ "login_page" then
        some (Resp.redirect "/login")
      else
        none

/-- The `/get_user_profile` route handler body (lines 170-195), as it runs
once dispatched: the in-handler guard returns 401 without a session; with one,
the user row is looked up by id. -/
def get_user_profile (user_id : Option Nat) (store : List User) : Resp :=
  match user_id with
  | none => Resp.json 401 "Not authenticated."
  | some uid =>
    match store.find? (fun u => u.id == uid) with
    | some u => Resp.profile 200 u.username u.email u.member_since "Standard User"
    | none => Resp.json 404 "Profile data not found."

/-- A full GET request to `/get_user_profile` through the Flask pipeline:
`check_auth` runs first (its endpoint name is `get_user_profile`, its path
`/get_user_profile`); only when it returns `none` does the route handler
run. -/
def handle_get_user_profile (user_id : Option Nat) (store : List User) : Resp :=
  match check_auth "/get_user_profile" "get_user_profile" user_id with
  | some r => r
  | none => get_user_profile user_id store

/-- Helper: an if-then-else of options equal to `some r` forces one branch to
equal `some r`. -/
theorem ite_eq_some_or {c : Prop} [Decidable c] {x y : Option String} {r : String}
    (h : (if c then x else y) = some r) : x = some r ∨ y = some r := by
  by_cases hc : c
  · left
    rwa [if_pos hc] at h
  · right
    rwa [if_neg hc] at h

set_option maxHeartbeats 2000000 in
/-- Helper: every reply produced by a matched branch is one of the canned
replies. -/
theorem matchRule_mem_all_replies (m r : String) (h : matchRule m = some r) :
    r ∈ all_replies := by
  unfold matchRule at h
  repeat
    first
      | exact Option.noConfusion h
      | (injection h with h
         subst h
         simp [all_replies])
      | rcases ite_eq_some_or h with h | h

/-- Helper: one chat call always leaves the counter at 0 or 1, whatever its
value before the call. -/
theorem chat_counter_le_one (m : String) (c : Nat) : (chat m c).2 ≤ 1 := by
  unfold chat
  cases hm : matchRule (lower_strip m) with
  | none =>
    dsimp only
    split
    · exact Nat.zero_le 1
    · show c + 1 ≤ 1
      omega
  | some r => exact Nat.zero_le 1

/-- Helper: a sequence of chat calls keeps the counter at 0 or 1. -/
theorem runChat_le_one (msgs : List String) (c : Nat) (hc : c ≤ 1) :
    runChat msgs c ≤ 1 := by
  induction msgs generalizing c with
  | nil => simpa [runChat]
  | cons m rest ih =>
    have h := chat_counter_le_one m c
    simpa [runChat] using ih _ h

set_option maxRecDepth 100000 in
/-- Helper: no canned reply is the empty string. -/
theorem all_replies_ne_empty : ∀ r ∈ all_replies, r ≠ "" := by decide

set_option maxRecDepth 100000 in
/-- C1 counterexample: a GET request to `/get_user_profile` with no active
session is answered by the `before_request` gate with a redirect to `/login`,
not with the 401 the claim asserts — the in-handler 401 guard is shadowed by
the gate, which does not exempt this path. -/
theorem C1_counterexample :
    handle_get_user_profile none [] = Resp.redirect "/login" ∧
    handle_get_user_profile none [] ≠ Resp.json 401 "Not authenticated." := by
  constructor
  · rfl
  · decide

/-- C1 (amended): for every store state, a GET request to `/get_user_profile`
with no active session is redirected to `/login` by the `before_request` gate;
the handler's own guard would return 401 with "Not authenticated.", but it is
reached only when the handler runs without the gate. -/
theorem C1_gate_redirects_handler_401 (store : List User) :
    handle_get_user_profile none store = Resp.redirect "/login" ∧
    get_user_profile none store = Resp.json 401 "Not authenticated." :=
  ⟨rfl, rfl⟩

/-- C2: starting from counter 0, three consecutive unmatched chat inputs give:
generic "please rephrase" reply leaving the counter at 1, then the escalated
capability-listing fallback resetting the counter to 0, then the generic reply
again with the counter back at 1. -/
theorem C2_two_strike_escalation (u1 u2 u3 : String)
    (h1 : matchRule (lower_strip u1) = none)
    (h2 : matchRule (lower_strip u2) = none)
    (h3 : matchRule (lower_strip u3) = none) :
    chat u1 0 = (generic_fallback_reply, 1) ∧
    chat u2 1 = (escalated_fallback_reply, 0) ∧
    chat u3 0 = (generic_fallback_reply, 1) := by
  unfold chat
  rw [h1, h2, h3]
  exact ⟨rfl, rfl, rfl⟩

set_option maxRecDepth 100000 in
/-- C2 witness: "zzz" is unmatched, and the two-strike behavior holds on three
consecutive "zzz" inputs from counter 0. -/
theorem C2_two_strike_escalation_witness :
    matchRule (lower_strip "zzz") = none ∧
    (chat "zzz" 0 = (generic_fallback_reply, 1) ∧
      chat "zzz" 1 = (escalated_fallback_reply, 0) ∧
      chat "zzz" 0 = (generic_fallback_reply, 1)) :=
  ⟨by decide, C2_two_strike_escalation "zzz" "zzz" "zzz" (by decide) (by decide) (by decide)⟩

/-- C3: the chat operation is total — for every input message and counter
state it returns one of the canned replies, which is never the empty string;
no input reaches an error path. -/
theorem C3_chat_total (raw_message : String) (c : Nat) :
    (chat raw_message c).1 ∈ all_replies ∧ (chat raw_message c).1 ≠ "" := by
  have hmem : (chat raw_message c).1 ∈ all_replies := by
    unfold chat
    cases hm : matchRule (lower_strip raw_message) with
    | some r => exact matchRule_mem_all_replies _ r hm
    | none =>
      dsimp only
      split
      · simp [all_replies]
      · simp [all_replies]
  exact ⟨hmem, all_replies_ne_empty _ hmem⟩

/-- C4: whenever the lower-cased, trimmed input takes any branch other than
the terminal unmatched path (the empty-input branch included), the error-streak
counter is 0 after the call, whatever its value before. -/
theorem C4_matched_branch_resets (raw_message : String) (c : Nat)
    (h : (matchRule (lower_strip raw_message)).isSome = true) :
    (chat raw_message c).2 = 0 := by
  unfold chat
  obtain ⟨r, hr⟩ := Option.isSome_iff_exists.mp h
  rw [hr]

set_option maxRecDepth 100000 in
/-- C4 witness: "hello there" takes the greeting branch and resets a counter
of 7 to 0. -/
theorem C4_matched_branch_resets_witness :
    (matchRule (lower_strip "hello there")).isSome = true ∧ (chat "hello there" 7).2 = 0 :=
  ⟨by decide, C4_matched_branch_resets "hello there" 7 (by decide)⟩

set_option maxRecDepth 200000 in
/-- C5: the messages "I'd like info on web developer roles" and "backend"
produce the identical reply, namely the Web Developer reply block — the
disjunction "web developer"/"web dev"/"frontend"/"backend" routes to one fixed
reply. -/
theorem C5_webdev_disjunction_equivalence :
    (chat "I'd like info on web developer roles" 0).1 = (chat "backend" 0).1 ∧
    (chat "backend" 0).1 = web_developer_reply := by
  constructor
  · decide
  · decide

/-- C6: when the store contains a user with the given email (and exactly one
row carries that email), a further well-formed registration with that email
returns 409, leaves the store unchanged, and exactly one row with that email
remains. -/
theorem C6_duplicate_email_conflict (store : List User) (u : User)
    (username email password member_since : String)
    (hu : username ≠ "") (he : email ≠ "") (hp : 6 ≤ password.length)
    (hmem : u ∈ store) (hueq : u.email = email)
    (hone : store.countP (fun v => v.email == email) = 1) :
    (register_user username email password member_since store).1 = 409 ∧
    (register_user username email password member_since store).2.2 = store ∧
    (register_user username email password member_since store).2.2.countP
      (fun v => v.email == email) = 1 := by
  have hpw : password ≠ "" := by
    intro hp0
    rw [hp0] at hp
    simp at hp
  have h1 : ¬(email = "" ∨ password = "" ∨ username = "") := by
    push_neg
    exact ⟨he, hpw, hu⟩
  have h2 : ¬(password.length < 6) := by omega
  have hany : (store.any fun v => v.email == email || v.username == username) = true := by
    rw [List.any_eq_true]
    refine ⟨u, hmem, ?_⟩
    rw [hueq]
    simp
  have hreg : register_user username email password member_since store =
      (409, "Email or username already registered.", store) := by
    unfold register_user
    rw [if_neg h1, if_neg h2, if_pos hany]
  rw [hreg]
  exact ⟨rfl, rfl, hone⟩

set_option maxRecDepth 100000 in
/-- C6 witness: re-registering alice's email against a one-row store returns
409 and keeps exactly that row. -/
theorem C6_duplicate_email_conflict_witness :
    ("bob" : String) ≠ "" ∧ ("a@b.c" : String) ≠ "" ∧ 6 ≤ ("longpw" : String).length ∧
    (⟨1, "alice", "a@b.c", "secret123", "July 2025"⟩ : User) ∈
      ([⟨1, "alice", "a@b.c", "secret123", "July 2025"⟩] : List User) ∧
    (⟨1, "alice", "a@b.c", "secret123", "July 2025"⟩ : User).email = "a@b.c" ∧
    ([⟨1, "alice", "a@b.c", "secret123", "July 2025"⟩] : List User).countP
      (fun v => v.email == "a@b.c") = 1 ∧
    ((register_user "bob" "a@b.c" "longpw" "July 2025"
        [⟨1, "alice", "a@b.c", "secret123", "July 2025"⟩]).1 = 409 ∧
      (register_user "bob" "a@b.c" "longpw" "July 2025"
        [⟨1, "alice", "a@b.c", "secret123", "July 2025"⟩]).2.2 =
        [⟨1, "alice", "a@b.c", "secret123", "July 2025"⟩] ∧
      (register_user "bob" "a@b.c" "longpw" "July 2025"
        [⟨1, "alice", "a@b.c", "secret123", "July 2025"⟩]).2.2.countP
        (fun v => v.email == "a@b.c") = 1) :=
  ⟨by decide, by decide, by decide, by decide, by decide, by decide,
    C6_duplicate_email_conflict [⟨1, "alice", "a@b.c", "secret123", "July 2025"⟩]
      ⟨1, "alice", "a@b.c", "secret123", "July 2025"⟩ "bob" "a@b.c" "longpw" "July 2025"
      (by decide) (by decide) (by decide) (by decide) (by decide) (by decide)⟩

/-- C7: a registration whose username, email or password is missing/empty, or
whose password has fewer than 6 characters, returns 400 and inserts no row. -/
theorem C7_invalid_registration_400 (store : List User)
    (username email password member_since : String)
    (h : username = "" ∨ email = "" ∨ password = "" ∨ password.length < 6) :
    (register_user username email password member_since store).1 = 400 ∧
    (register_user username email password member_since store).2.2 = store := by
  unfold register_user
  by_cases h1 : email = "" ∨ password = "" ∨ username = ""
  · rw [if_pos h1]
    exact ⟨rfl, rfl⟩
  · have hlen : password.length < 6 := by
      push_neg at h1
      rcases h with h | h | h | h
      · exact absurd h h1.2.2
      · exact absurd h h1.1
      · exact absurd h h1.2.1
      · exact h
    rw [if_neg h1, if_pos hlen]
    exact ⟨rfl, rfl⟩

/-- C7 witness: a 5-character password is rejected with 400 and the store
stays empty. -/
theorem C7_invalid_registration_400_witness :
    (("user1" : String) = "" ∨ ("e@x" : String) = "" ∨ ("12345" : String) = "" ∨
      ("12345" : String).length < 6) ∧
    ((register_user "user1" "e@x" "12345" "July 2025" []).1 = 400 ∧
      (register_user "user1" "e@x" "12345" "July 2025" []).2.2 = []) :=
  ⟨by decide, C7_invalid_registration_400 [] "user1" "e@x" "12345" "July 2025" (by decide)⟩

/-- C8: a login with an existing email but wrong password and a login with an
unknown email both return 401 with the identical full response — status,
message "Invalid email or password." and no session — so the response does not
reveal whether the email exists. -/
theorem C8_login_no_account_enumeration (store : List User)
    (email1 pw1 email2 pw2 : String) (u : User)
    (he1 : email1 ≠ "") (hp1 : pw1 ≠ "")
    (hfind : store.find? (fun v => v.email == email1) = some u)
    (hpw : u.password ≠ pw1)
    (he2 : email2 ≠ "") (hp2 : pw2 ≠ "")
    (hnone : store.find? (fun v => v.email == email2) = none) :
    login_user email1 pw1 store = (401, "Invalid email or password.", none) ∧
    login_user email2 pw2 store = (401, "Invalid email or password.", none) ∧
    login_user email1 pw1 store = login_user email2 pw2 store := by
  have h1 : login_user email1 pw1 store = (401, "Invalid email or password.", none) := by
    unfold login_user
    rw [if_neg (by push_neg; exact ⟨he1, hp1⟩)]
    simp only [hfind]
    rw [if_neg (by simpa using hpw)]
  have h2 : login_user email2 pw2 store = (401, "Invalid email or password.", none) := by
    unfold login_user
    rw [if_neg (by push_neg; exact ⟨he2, hp2⟩)]
    simp only [hnone]
  exact ⟨h1, h2, h1.trans h2.symm⟩

set_option maxRecDepth 100000 in
/-- C8 witness: against a one-row store, a wrong password for alice's email and
an unknown email produce the identical 401 response. -/
theorem C8_login_no_account_enumeration_witness :
    ("a@b.c" : String) ≠ "" ∧ ("wrong" : String) ≠ "" ∧
    ([⟨1, "alice", "a@b.c", "secret123", "July 2025"⟩] : List User).find?
      (fun v => v.email == "a@b.c") = some ⟨1, "alice", "a@b.c", "secret123", "July 2025"⟩ ∧
    (⟨1, "alice", "a@b.c", "secret123", "July 2025"⟩ : User).password ≠ "wrong" ∧
    ("x@y.z" : String) ≠ "" ∧ ("whatever" : String) ≠ "" ∧
    ([⟨1, "alice", "a@b.c", "secret123", "July 2025"⟩] : List User).find?
      (fun v => v.email == "x@y.z") = none ∧
    (login_user "a@b.c" "wrong" [⟨1, "alice", "a@b.c", "secret123", "July 2025"⟩] =
        (401, "Invalid email or password.", none) ∧
      login_user "x@y.z" "whatever" [⟨1, "alice", "a@b.c", "secret123", "July 2025"⟩] =
        (401, "Invalid email or password.", none) ∧
      login_user "a@b.c" "wrong" [⟨1, "alice", "a@b.c", "secret123", "July 2025"⟩] =
        login_user "x@y.z" "whatever" [⟨1, "alice", "a@b.c", "secret123", "July 2025"⟩]) :=
  ⟨by decide, by decide, by decide, by decide, by decide, by decide, by decide,
    C8_login_no_account_enumeration [⟨1, "alice", "a@b.c", "secret123", "July 2025"⟩]
      "a@b.c" "wrong" "x@y.z" "whatever" ⟨1, "alice", "a@b.c", "secret123", "July 2025"⟩
      (by decide) (by decide) (by decide) (by decide) (by decide) (by decide) (by decide)⟩

set_option maxRecDepth 200000 in
/-- C9: the input "cybersecurity" contains "ty" as a substring, so the
gratitude branch — evaluated before the cybersecurity topic rule — fires, and
the reply is the gratitude acknowledgment, not the Cybersecurity topic
reply. -/
theorem C9_cybersecurity_matches_gratitude :
    strContains (lower_strip "cybersecurity") "ty" = true ∧
    matchRule (lower_strip "cybersecurity") = some thanks_reply ∧
    (chat "cybersecurity" 0).1 = thanks_reply ∧
    thanks_reply ≠ cybersecurity_reply := by
  refine ⟨by decide, by decide, by decide, by decide⟩

/-- C10: every chat call leaves the counter at 0 or 1, and starting from the
initial value 0 no sequence of chat calls can leave the counter at 2 or
more. -/
theorem C10_counter_never_reaches_two :
    (∀ raw_message c, (chat raw_message c).2 ≤ 1) ∧
    ∀ msgs : List String, runChat msgs 0 ≤ 1 :=
  ⟨chat_counter_le_one, fun msgs => runChat_le_one msgs 0 (by omega)⟩
